import Mathlib

/-!
# Verification of the Mail Relay Facade (`src/server.js`)

Shallow embedding of the Express email backend: the three HTTP handlers
(`/api/email-status`, `/api/send-email`, `/api/test-email`) are modelled as
pure Lean functions from a JavaScript-value request model to an HTTP
response together with the list of messages handed to the SMTP transport's
deliver operation (`transporter.sendMail`).  The transport itself is an
external collaborator and is modelled as a function from the constructed
mail options to a delivery outcome.
-/

namespace MailRelay

/-- JavaScript primitive values as they occur in request/response bodies.
`undefined` is what destructuring a missing key yields. -/
inductive JsValue : Type
  | undefined : JsValue
  | null : JsValue
  | bool : Bool → JsValue
  | num : Int → JsValue
  | str : String → JsValue
deriving DecidableEq

/-- JavaScript truthiness: `undefined`, `null`, `false`, `0` and `""` are
falsy, every other primitive is truthy. -/
def truthy : JsValue → Bool
  | .undefined => false
  | .null => false
  | .bool b => b
  | .num n => n != 0
  | .str s => s != ""

/-- JavaScript `String(v)` coercion on primitives, as applied by
`RegExp.prototype.test` and template literals. -/
def JsValue.toStr : JsValue → String
  | .undefined => "undefined"
  | .null => "null"
  | .bool true => "true"
  | .bool false => "false"
  | .num n => toString n
  | .str s => s

/-- Characters matched by the JavaScript regular-expression class `\s`. -/
def isJsWhitespace (c : Char) : Bool :=
  c == ' ' || c == '\t' || c == '\n' || c == '\r' ||
  c == '\x0b' || c == '\x0c' || c == '\u00A0' || c == '\u1680' ||
  (decide (0x2000 ≤ c.val) && decide (c.val ≤ 0x200A)) ||
  c == '\u2028' || c == '\u2029' || c == '\u202F' || c == '\u205F' ||
  c == '\u3000' || c == '\uFEFF'

/-- A character admissible in the `[^\s@]+` atoms of the email regex. -/
def okChar (c : Char) : Bool := !(isJsWhitespace c) && c != '@'

/-- Split a character list at every occurrence of the separator, like
`String.splitOn` with a one-character separator. -/
def splitOnChar (sep : Char) : List Char → List (List Char)
  | [] => [[]]
  | c :: cs =>
    match splitOnChar sep cs with
    | [] => if c == sep then [[], [c]] else [[c]]
    | h :: t => if c == sep then [] :: h :: t else (c :: h) :: t

/-- The local part `[^\s@]+` before the `@`. -/
def validLocal (l : List Char) : Bool :=
  !l.isEmpty && l.all okChar

/-- The domain part `[^\s@]+\.[^\s@]+` after the `@`: no whitespace or `@`,
and some `.` that is neither the first nor the last character. -/
def validDomain (d : List Char) : Bool :=
  !d.isEmpty && d.all okChar &&
    (List.range d.length).any fun i =>
      d.get? i == some '.' && decide (0 < i) && decide (i + 1 < d.length)

/-- `emailRegex.test s` for `emailRegex = /^[^\s@]+@[^\s@]+\.[^\s@]+$/`
(src/server.js line 98): exactly one `@`, a nonempty whitespace-free local
part, and a domain containing an interior dot. -/
def emailRegexTest (s : String) : Bool :=
  match splitOnChar '@' s.toList with
  | [l, d] => validLocal l && validDomain d
  | _ => false

/-- Environment-style configuration read by the handlers
(`VITE_EMAIL_FROM_NAME`, `VITE_EMAIL_FROM_ADDRESS`, `VITE_SMTP_HOST`,
`VITE_SMTP_PORT`); `none` models an unset variable. -/
structure Config : Type where
  emailFromName : Option String
  emailFromAddress : Option String
  smtpHost : Option String
  smtpPort : Option String
deriving DecidableEq

/-- `env || dflt`: an unset or empty environment variable falls back to the
default (JavaScript `||` on the string). -/
def envOr (v : Option String) (dflt : String) : String :=
  match v with
  | some s => if s = "" then dflt else s
  | none => dflt

/-- Template-literal interpolation of an environment variable: an unset
variable prints as `undefined`. -/
def envShow (v : Option String) : String :=
  match v with
  | some s => s
  | none => "undefined"

/-- The default sender identity
`"${VITE_EMAIL_FROM_NAME || 'Expense Manager Pro'}" <${VITE_EMAIL_FROM_ADDRESS || 'noreply@expensemanagerpro.com'}>`
(src/server.js line 106). -/
def defaultFrom (cfg : Config) : String :=
  "\"" ++ envOr cfg.emailFromName "Expense Manager Pro" ++ "\" <" ++
    envOr cfg.emailFromAddress "noreply@expensemanagerpro.com" ++ ">"

/-- The body of a `POST /api/send-email` request after destructuring
`const \x7b from, to, subject, html, text \x7d = req.body`; a missing key
destructures to `undefined`. -/
structure SendEmailBody : Type where
  «from» : JsValue
  «to» : JsValue
  subject : JsValue
  html : JsValue
  text : JsValue
deriving DecidableEq

/-- The `mailOptions` object handed to `transporter.sendMail`
(src/server.js lines 105-111). -/
structure MailOptions : Type where
  «from» : JsValue
  «to» : JsValue
  subject : JsValue
  html : JsValue
  text : JsValue
deriving DecidableEq

/-- Outcome of the transport's `sendMail` call: either a result object with
`messageId` and `response`, or a thrown error with a `message` and an
optional `code` property (`undefined` when the error has no code). -/
inductive TransportResult : Type
  | ok : String → String → TransportResult
  | err : String → JsValue → TransportResult
deriving DecidableEq

/-- An HTTP response: status code and flat JSON object body. -/
structure HttpResponse : Type where
  status : Nat
  body : List (String × JsValue)
deriving DecidableEq

/-- `mailOptions` construction (src/server.js lines 105-111): `from` falls
back to the default identity when falsy, `text` falls back to `null`. -/
def buildMailOptions (cfg : Config) (b : SendEmailBody) : MailOptions :=
  { «from» := if truthy b.«from» then b.«from» else .str (defaultFrom cfg)
    «to» := b.«to»
    subject := b.subject
    html := b.html
    text := if truthy b.text then b.text else .null }

/-- The `POST /api/send-email` handler (src/server.js lines 80-132).
Returns the HTTP response together with the list of messages handed to the
transport's deliver operation during the request. -/
def sendEmailHandler (cfg : Config) (transporterInit : Bool)
    (deliver : MailOptions → TransportResult) (b : SendEmailBody) :
    HttpResponse × List MailOptions :=
  if !transporterInit then
    ({ status := 503
       body := [("error", .str "Email service unavailable - transporter not initialized")] }, [])
  else if !(truthy b.«to» && truthy b.subject && truthy b.html) then
    ({ status := 400
       body := [("error", .str "Missing required fields: to, subject, and html are required")] }, [])
  else if !(emailRegexTest b.«to».toStr) then
    ({ status := 400, body := [("error", .str "Invalid email address format")] }, [])
  else
    let mailOptions := buildMailOptions cfg b
    match deliver mailOptions with
    | .ok mid resp =>
        ({ status := 200
           body := [("success", .bool true), ("messageId", .str mid), ("response", .str resp)] },
         [mailOptions])
    | .err msg code =>
        ({ status := 500
           body := [("error", .str "Failed to send email"), ("details", .str msg),
                    ("code", if truthy code then code else .str "EMAIL_SEND_ERROR")] },
         [mailOptions])

/-- The `GET /api/email-status` handler (src/server.js lines 65-77). -/
def emailStatusHandler (transporterInit : Bool) (timestamp : String) : HttpResponse :=
  if !transporterInit then
    { status := 503
      body := [("status", .str "unavailable"), ("error", .str "Email transporter not initialized")] }
  else
    { status := 200, body := [("status", .str "available"), ("timestamp", .str timestamp)] }

/-- The `GET /api/health` handler (src/server.js lines 60-62). -/
def healthHandler (timestamp : String) : HttpResponse :=
  { status := 200, body := [("status", .str "OK"), ("timestamp", .str timestamp)] }

/-- The fixed HTML diagnostic body built by `POST /api/test-email`
(src/server.js lines 148-177), with the template-literal interpolations of
the configuration values and the timestamp. -/
def testEmailHtml (cfg : Config) (timestamp : String) : String :=
  "\n        <!DOCTYPE html>\n        <html>\n        <head>\n          <meta charset=\"utf-8\">\n          <style>\n            body \x7b font-family: Arial, sans-serif; line-height: 1.6; color: #333; \x7d\n            .container \x7b max-width: 600px; margin: 0 auto; padding: 20px; \x7d\n            .success \x7b background: #D1FAE5; border: 1px solid #10B981; padding: 15px; border-radius: 6px; \x7d\n          </style>\n        </head>\n        <body>\n          <div class=\"container\">\n            <div class=\"success\">\n              <h2>✅ Backend Email Service Test Successful!</h2>\n              <p>This is a test email to verify that your backend email service is working correctly.</p>\n              <p><strong>Service Details:</strong></p>\n              <ul>\n                <li>Backend API: Active</li>\n                <li>SMTP Host: " ++ envShow cfg.smtpHost ++
  "</li>\n                <li>SMTP Port: " ++ envShow cfg.smtpPort ++
  "</li>\n                <li>From Name: " ++ envShow cfg.emailFromName ++
  "</li>\n                <li>From Address: " ++ envShow cfg.emailFromAddress ++
  "</li>\n              </ul>\n              <p>Timestamp: " ++ timestamp ++
  "</p>\n            </div>\n          </div>\n        </body>\n        </html>\n      "

/-- The `emailData` object the test-email handler posts to
`/api/send-email` (src/server.js lines 145-178): `from` and `text` keys are
absent. -/
def testEmailData (cfg : Config) (timestamp : String) (testEmail : JsValue) : SendEmailBody :=
  { «from» := .undefined
    «to» := testEmail
    subject := .str "Test Email - Expense Manager Pro Backend Service"
    html := .str (testEmailHtml cfg timestamp)
    text := .undefined }

/-- The body of a `POST /api/test-email` request after destructuring
`const \x7b testEmail \x7d = req.body`. -/
structure TestEmailBody : Type where
  testEmail : JsValue
deriving DecidableEq

/-- `Response.ok` for the internal fetch: status in the range 200-299. -/
def respOk (status : Nat) : Bool := 200 ≤ status && status < 300

/-- The message of `new Error(errorData.error || 'Failed to send test email')`
built from the JSON body of a failed internal send-email response. -/
def errorDataMessage (body : List (String × JsValue)) : String :=
  match body.lookup "error" with
  | some v => if truthy v then v.toStr else "Failed to send test email"
  | none => "Failed to send test email"

/-- The `POST /api/test-email` handler (src/server.js lines 135-204).  The
internal `fetch` of `/api/send-email` on the loopback interface is modelled
as a direct invocation of the send-email handler on the diagnostic message;
a non-ok internal response makes the handler throw and answer 500. -/
def testEmailHandler (cfg : Config) (transporterInit : Bool)
    (deliver : MailOptions → TransportResult) (timestamp : String)
    (b : TestEmailBody) : HttpResponse × List MailOptions :=
  if !truthy b.testEmail then
    ({ status := 400, body := [("error", .str "testEmail is required")] }, [])
  else
    let inner := sendEmailHandler cfg transporterInit deliver
      (testEmailData cfg timestamp b.testEmail)
    if respOk inner.1.status then
      ({ status := 200, body := inner.1.body }, inner.2)
    else
      ({ status := 500
         body := [("error", .str "Failed to send test email"),
                  ("details", .str (errorDataMessage inner.1.body))] },
       inner.2)

/-- A message is fit for the transport when `to`, `subject`, `html` are all
truthy and `to` passes the address-shape regular expression. -/
def validForTransport (m : MailOptions) : Bool :=
  truthy m.«to» && truthy m.subject && truthy m.html && emailRegexTest m.«to».toStr

/-! ## Concrete instances used by witnesses and counterexamples -/

/-- A configuration with every environment variable unset. -/
def cfg0 : Config :=
  { emailFromName := none, emailFromAddress := none, smtpHost := none, smtpPort := none }

/-- A fixed timestamp string. -/
def ts0 : String := "2026-10-12T00:00:00.000Z"

/-- A working transport stub returning `messageId "abc123"` and
`response "250 OK"`. -/
def deliverOk : MailOptions → TransportResult := fun _ => .ok "abc123" "250 OK"

/-- A transport stub throwing an error with message `Connection refused`
and no `code` property. -/
def deliverRefused : MailOptions → TransportResult :=
  fun _ => .err "Connection refused" .undefined

/-- A transport stub throwing an error whose `code` property is present but
is the empty string. -/
def deliverEmptyCode : MailOptions → TransportResult :=
  fun _ => .err "Connection refused" (.str "")

/-- The spec's example valid request body. -/
def bodyOk : SendEmailBody :=
  { «from» := .undefined, «to» := .str "user@example.com"
    subject := .str "Hi", html := .str "<p>hi</p>", text := .undefined }

/-- A request body whose `subject` key is absent. -/
def bodyMissingSubject : SendEmailBody :=
  { «from» := .undefined, «to» := .str "user@example.com"
    subject := .undefined, html := .str "<p>hi</p>", text := .undefined }

/-- A request body whose `html` is present but is the empty string. -/
def bodyHtmlEmpty : SendEmailBody :=
  { «from» := .undefined, «to» := .str "user@example.com"
    subject := .str "Hi", html := .str "", text := .undefined }

/-- A request body whose `to` does not match the address shape. -/
def bodyBadFormat : SendEmailBody :=
  { «from» := .undefined, «to» := .str "not-an-email"
    subject := .str "Hi", html := .str "<p>hi</p>", text := .undefined }

/-- A request body that both misses required fields and has a malformed `to`. -/
def bodyBadBoth : SendEmailBody :=
  { «from» := .undefined, «to» := .str "not-an-email"
    subject := .undefined, html := .undefined, text := .undefined }

/-- A valid request body whose `from` is present but is the empty string. -/
def bodyFromEmpty : SendEmailBody :=
  { «from» := .str "", «to» := .str "user@example.com"
    subject := .str "Hi", html := .str "<p>hi</p>", text := .undefined }

/-- A valid request body with falsy optional fields: `from` is the empty
string and `text` is the number `0`. -/
def bodyFalsyOpt : SendEmailBody :=
  { «from» := .str "", «to» := .str "user@example.com"
    subject := .str "Hi", html := .str "<p>hi</p>", text := .num 0 }

/-- A valid request body with a falsy `from` (the empty string) and a
truthy `text`. -/
def bodyFromEmptyTextSet : SendEmailBody :=
  { «from» := .str "", «to» := .str "user@example.com"
    subject := .str "Hi", html := .str "<p>hi</p>", text := .str "plain" }

/-! ## General lemmas about the send-email handler -/

/-- With the transport initialized and some required field falsy, the
send-email handler answers the missing-fields 400 and calls nothing. -/
theorem sendEmail_missing_eq (cfg : Config) (deliver : MailOptions → TransportResult)
    (b : SendEmailBody)
    (h : (truthy b.«to» && truthy b.subject && truthy b.html) = false) :
    sendEmailHandler cfg true deliver b =
      ({ status := 400
         body := [("error", .str "Missing required fields: to, subject, and html are required")] },
       []) := by
  unfold sendEmailHandler
  simp [h]

/-- On a validated request the transport is handed exactly the constructed
mail options, once, whatever the delivery outcome. -/
theorem sendEmail_valid_calls (cfg : Config) (deliver : MailOptions → TransportResult)
    (b : SendEmailBody)
    (hv : (truthy b.«to» && truthy b.subject && truthy b.html) = true)
    (hfmt : emailRegexTest b.«to».toStr = true) :
    (sendEmailHandler cfg true deliver b).2 = [buildMailOptions cfg b] := by
  unfold sendEmailHandler
  simp only [hv, hfmt, Bool.not_true, Bool.false_eq_true, if_false]
  cases deliver (buildMailOptions cfg b) <;> simp

/-- Every message in the send-email handler call list is fit for the
transport. -/
theorem sendEmail_calls_valid (cfg : Config) (tinit : Bool)
    (deliver : MailOptions → TransportResult) (b : SendEmailBody) :
    ((sendEmailHandler cfg tinit deliver b).2.all validForTransport) = true := by
  cases tinit with
  | false => unfold sendEmailHandler; simp
  | true =>
    by_cases hv : (truthy b.«to» && truthy b.subject && truthy b.html) = true
    · by_cases hfmt : emailRegexTest b.«to».toStr = true
      · rw [sendEmail_valid_calls cfg deliver b hv hfmt]
        have hv2 := hv
        simp only [Bool.and_eq_true] at hv2
        obtain ⟨⟨ht, hs⟩, hh⟩ := hv2
        simp [validForTransport, buildMailOptions, ht, hs, hh, hfmt]
      · unfold sendEmailHandler; simp [hv, hfmt]
    · have hb : (truthy b.«to» && truthy b.subject && truthy b.html) = false := by
        revert hv
        cases (truthy b.«to» && truthy b.subject && truthy b.html) <;> simp
      rw [sendEmail_missing_eq cfg deliver b hb]
      rfl

/-- The send-email handler only ever answers 503, 400, 200 or 500. -/
theorem sendEmail_status_cases (cfg : Config) (tinit : Bool)
    (deliver : MailOptions → TransportResult) (b : SendEmailBody) :
    (sendEmailHandler cfg tinit deliver b).1.status = 503 ∨
    (sendEmailHandler cfg tinit deliver b).1.status = 400 ∨
    (sendEmailHandler cfg tinit deliver b).1.status = 200 ∨
    (sendEmailHandler cfg tinit deliver b).1.status = 500 := by
  unfold sendEmailHandler
  split
  · simp
  · split
    · simp
    · split
      · simp
      · cases hd : deliver (buildMailOptions cfg b) <;> simp [hd]

/-! ## Claims -/

/-- C2: for every request to POST /api/send-email whose body has a `to`
matching the address shape, a truthy `subject` and `html`, and an
initialized transport whose deliver call succeeds with some `messageId` and
`response` string, the handler responds 200 with body
`{success:true, messageId, response}` containing exactly the
transport-returned `messageId` and `response`. -/
theorem C2_send_success (cfg : Config) (deliver : MailOptions → TransportResult)
    (b : SendEmailBody) (mid resp : String)
    (hto : truthy b.«to» = true) (hsub : truthy b.subject = true)
    (hhtml : truthy b.html = true)
    (hfmt : emailRegexTest b.«to».toStr = true)
    (hdel : deliver (buildMailOptions cfg b) = .ok mid resp) :
    (sendEmailHandler cfg true deliver b).1 =
      { status := 200
        body := [("success", .bool true), ("messageId", .str mid), ("response", .str resp)] } := by
  unfold sendEmailHandler
  simp [hto, hsub, hhtml, hfmt, hdel]

/-- Witness for C2 at the spec example: a valid request and a transport
stub returning messageId abc123 and response 250 OK. -/
theorem C2_witness :
    truthy bodyOk.«to» = true ∧
    (sendEmailHandler cfg0 true deliverOk bodyOk).1 =
      { status := 200
        body := [("success", .bool true), ("messageId", .str "abc123"),
                 ("response", .str "250 OK")] } :=
  ⟨by decide,
   C2_send_success cfg0 deliverOk bodyOk "abc123" "250 OK"
     (by decide) (by decide) (by decide) (by decide) rfl⟩

/-- C3 counterexample: a transport error whose `code` property is present
but is the empty string; the response carries the generic code
EMAIL_SEND_ERROR instead of the thrown error code, refuting "the thrown
error code if present". -/
theorem C3_counterexample :
    deliverEmptyCode (buildMailOptions cfg0 bodyOk) =
      .err "Connection refused" (.str "") ∧
    (sendEmailHandler cfg0 true deliverEmptyCode bodyOk).1.body.lookup "code" =
      some (.str "EMAIL_SEND_ERROR") ∧
    JsValue.str "EMAIL_SEND_ERROR" ≠ .str "" :=
  ⟨rfl, by decide, by decide⟩

/-- C3 (amended): for every valid send-email request where the deliver call
throws, the handler responds 500 with body error "Failed to send email",
details the thrown message, and code the thrown error code if present and
truthy, otherwise EMAIL_SEND_ERROR; the failure is surfaced on the first
attempt with no retry, deliver being invoked exactly once. -/
theorem C3_send_failure (cfg : Config) (deliver : MailOptions → TransportResult)
    (b : SendEmailBody) (msg : String) (code : JsValue)
    (hto : truthy b.«to» = true) (hsub : truthy b.subject = true)
    (hhtml : truthy b.html = true)
    (hfmt : emailRegexTest b.«to».toStr = true)
    (hdel : deliver (buildMailOptions cfg b) = .err msg code) :
    sendEmailHandler cfg true deliver b =
      ({ status := 500
         body := [("error", .str "Failed to send email"), ("details", .str msg),
                  ("code", if truthy code then code else .str "EMAIL_SEND_ERROR")] },
       [buildMailOptions cfg b]) := by
  unfold sendEmailHandler
  simp [hto, hsub, hhtml, hfmt, hdel]

/-- Witness for C3 at the spec example: a transport stub throwing
Connection refused with no code property. -/
theorem C3_witness :
    truthy bodyOk.«to» = true ∧
    sendEmailHandler cfg0 true deliverRefused bodyOk =
      ({ status := 500
         body := [("error", .str "Failed to send email"),
                  ("details", .str "Connection refused"),
                  ("code", .str "EMAIL_SEND_ERROR")] },
       [buildMailOptions cfg0 bodyOk]) := by
  refine ⟨by decide, ?_⟩
  have h := C3_send_failure cfg0 deliverRefused bodyOk "Connection refused" .undefined
    (by decide) (by decide) (by decide) (by decide) rfl
  rw [h]
  rfl

/-- C4: whenever the transport handle is uninitialized, GET
/api/email-status responds 503 with status unavailable and an error
message, and every POST /api/send-email responds 503 without invoking the
transport deliver operation, regardless of the request body. -/
theorem C4_unavailable (cfg : Config) (deliver : MailOptions → TransportResult)
    (b : SendEmailBody) (ts : String) :
    emailStatusHandler false ts =
      { status := 503
        body := [("status", .str "unavailable"),
                 ("error", .str "Email transporter not initialized")] } ∧
    sendEmailHandler cfg false deliver b =
      ({ status := 503
         body := [("error", .str "Email service unavailable - transporter not initialized")] },
       []) :=
  ⟨rfl, rfl⟩

/-- C5: for every request to POST /api/send-email lacking any of to,
subject or html (the transport being initialized), the handler responds
400 with a body containing an error field, and deliver is not invoked. -/
theorem C5_missing_fields (cfg : Config) (deliver : MailOptions → TransportResult)
    (b : SendEmailBody)
    (h : (truthy b.«to» && truthy b.subject && truthy b.html) = false) :
    sendEmailHandler cfg true deliver b =
      ({ status := 400
         body := [("error", .str "Missing required fields: to, subject, and html are required")] },
       []) ∧
    (sendEmailHandler cfg true deliver b).1.body.lookup "error" ≠ none := by
  have heq := sendEmail_missing_eq cfg deliver b h
  refine ⟨heq, ?_⟩
  rw [heq]
  decide

/-- Witness for C5: a request whose subject key is absent. -/
theorem C5_witness :
    (truthy bodyMissingSubject.«to» && truthy bodyMissingSubject.subject &&
      truthy bodyMissingSubject.html) = false ∧
    sendEmailHandler cfg0 true deliverOk bodyMissingSubject =
      ({ status := 400
         body := [("error", .str "Missing required fields: to, subject, and html are required")] },
       []) :=
  ⟨by decide, (C5_missing_fields cfg0 deliverOk bodyMissingSubject (by decide)).1⟩

/-- C6: for every request with to, subject and html present (truthy) but
whose to does not match the address regular expression, the handler
responds 400 with error "Invalid email address format" and deliver is not
invoked; and the missing-fields check is applied before this format check:
a request with a falsy required field gets the missing-fields 400 whatever
its to looks like. -/
theorem C6_invalid_format (cfg : Config) (deliver : MailOptions → TransportResult)
    (b b2 : SendEmailBody)
    (hto : truthy b.«to» = true) (hsub : truthy b.subject = true)
    (hhtml : truthy b.html = true)
    (hfmt : emailRegexTest b.«to».toStr = false)
    (h2 : (truthy b2.«to» && truthy b2.subject && truthy b2.html) = false) :
    sendEmailHandler cfg true deliver b =
      ({ status := 400, body := [("error", .str "Invalid email address format")] }, []) ∧
    sendEmailHandler cfg true deliver b2 =
      ({ status := 400
         body := [("error", .str "Missing required fields: to, subject, and html are required")] },
       []) := by
  constructor
  · unfold sendEmailHandler
    simp [hto, hsub, hhtml, hfmt]
  · exact sendEmail_missing_eq cfg deliver b2 h2

/-- Witness for C6: to "not-an-email"; and a request that both misses
fields and has a malformed to gets the missing-fields answer. -/
theorem C6_witness :
    truthy bodyBadFormat.«to» = true ∧
    emailRegexTest bodyBadFormat.«to».toStr = false ∧
    sendEmailHandler cfg0 true deliverOk bodyBadFormat =
      ({ status := 400, body := [("error", .str "Invalid email address format")] }, []) ∧
    sendEmailHandler cfg0 true deliverOk bodyBadBoth =
      ({ status := 400
         body := [("error", .str "Missing required fields: to, subject, and html are required")] },
       []) := by
  have h := C6_invalid_format cfg0 deliverOk bodyBadFormat bodyBadBoth
    (by decide) (by decide) (by decide) (by decide) (by decide)
  exact ⟨by decide, by decide, h.1, h.2⟩

/-- C7: invariant over all HTTP operations, the test-email path included:
a message is handed to the transport deliver operation only if its to,
subject and html are all truthy and its to matches the address-shape
regular expression. -/
theorem C7_transport_invariant (cfg : Config) (tinit : Bool)
    (deliver : MailOptions → TransportResult) (b : SendEmailBody)
    (tb : TestEmailBody) (ts : String) :
    ((sendEmailHandler cfg tinit deliver b).2.all validForTransport) = true ∧
    ((testEmailHandler cfg tinit deliver ts tb).2.all validForTransport) = true := by
  refine ⟨sendEmail_calls_valid cfg tinit deliver b, ?_⟩
  unfold testEmailHandler
  by_cases ht : truthy tb.testEmail = true
  · simp only [ht, Bool.not_true, Bool.false_eq_true, if_false]
    split
    · exact sendEmail_calls_valid cfg tinit deliver (testEmailData cfg ts tb.testEmail)
    · exact sendEmail_calls_valid cfg tinit deliver (testEmailData cfg ts tb.testEmail)
  · simp [ht]

/-- C8 counterexample: a request whose from key is present but holds the
empty string; the delivered message carries the configured default
identity, not the request from, refuting "equals the request from when
that field is present". -/
theorem C8_counterexample :
    bodyFromEmpty.«from» = .str "" ∧
    (sendEmailHandler cfg0 true deliverOk bodyFromEmpty).2 =
      [{ «from» := .str "\"Expense Manager Pro\" <noreply@expensemanagerpro.com>"
         «to» := .str "user@example.com", subject := .str "Hi"
         html := .str "<p>hi</p>", text := .null }] ∧
    JsValue.str "\"Expense Manager Pro\" <noreply@expensemanagerpro.com>" ≠ .str "" :=
  ⟨rfl, by decide, by decide⟩

/-- C8 (amended): for every valid send-email request, the message handed
to the transport carries the request to, subject and html unchanged, and
its from equals the request from when that field is present with a truthy
value, otherwise the configured default identity built from the configured
from-name and from-address. -/
theorem C8_message_fields (cfg : Config) (deliver : MailOptions → TransportResult)
    (b : SendEmailBody)
    (hv : (truthy b.«to» && truthy b.subject && truthy b.html) = true)
    (hfmt : emailRegexTest b.«to».toStr = true) :
    (sendEmailHandler cfg true deliver b).2 =
      [{ «from» := if truthy b.«from» then b.«from» else .str (defaultFrom cfg)
         «to» := b.«to», subject := b.subject, html := b.html
         text := if truthy b.text then b.text else .null }] := by
  rw [sendEmail_valid_calls cfg deliver b hv hfmt]
  rfl

/-- Witness for C8 at the spec example request (from and text absent). -/
theorem C8_witness :
    (truthy bodyOk.«to» && truthy bodyOk.subject && truthy bodyOk.html) = true ∧
    (sendEmailHandler cfg0 true deliverOk bodyOk).2 =
      [{ «from» := .str "\"Expense Manager Pro\" <noreply@expensemanagerpro.com>"
         «to» := .str "user@example.com", subject := .str "Hi"
         html := .str "<p>hi</p>", text := .null }] := by
  refine ⟨by decide, ?_⟩
  have h := C8_message_fields cfg0 deliverOk bodyOk (by decide) (by decide)
  rw [h]
  decide

/-- C9: presence of the required fields is decided by JavaScript
truthiness, not key existence: a request whose to, subject or html is a
falsy value (empty string, 0, false, null) is answered 400 exactly as if
the field were missing, and deliver is not invoked. -/
theorem C9_falsy_required (cfg : Config) (deliver : MailOptions → TransportResult)
    (b : SendEmailBody)
    (h : truthy b.«to» = false ∨ truthy b.subject = false ∨ truthy b.html = false) :
    sendEmailHandler cfg true deliver b =
      ({ status := 400
         body := [("error", .str "Missing required fields: to, subject, and html are required")] },
       []) ∧
    truthy (.str "") = false ∧ truthy (.num 0) = false ∧
    truthy (.bool false) = false ∧ truthy .null = false := by
  have hb : (truthy b.«to» && truthy b.subject && truthy b.html) = false := by
    rcases h with h | h | h <;> simp [h]
  exact ⟨sendEmail_missing_eq cfg deliver b hb, by decide, by decide, by decide, by decide⟩

/-- Witness for C9: html present but equal to the empty string. -/
theorem C9_witness :
    bodyHtmlEmpty.html = .str "" ∧
    sendEmailHandler cfg0 true deliverOk bodyHtmlEmpty =
      ({ status := 400
         body := [("error", .str "Missing required fields: to, subject, and html are required")] },
       []) :=
  ⟨rfl, (C9_falsy_required cfg0 deliverOk bodyHtmlEmpty (Or.inr (Or.inr (by decide)))).1⟩

/-- C10: falsy optional fields are normalized like absent ones,
independently of one another: on every valid send-email request exactly one
message is delivered, namely the constructed mail options; whenever the
request from is falsy that message carries the default sender identity,
and whenever the request text is falsy that message carries text equal to
null rather than omitting the field. -/
theorem C10_falsy_optional (cfg : Config) (deliver : MailOptions → TransportResult)
    (b : SendEmailBody)
    (hv : (truthy b.«to» && truthy b.subject && truthy b.html) = true)
    (hfmt : emailRegexTest b.«to».toStr = true) :
    (sendEmailHandler cfg true deliver b).2 = [buildMailOptions cfg b] ∧
    (truthy b.«from» = false → (buildMailOptions cfg b).«from» = .str (defaultFrom cfg)) ∧
    (truthy b.text = false → (buildMailOptions cfg b).text = .null) := by
  refine ⟨sendEmail_valid_calls cfg deliver b hv hfmt, ?_, ?_⟩
  · intro hfrom
    simp [buildMailOptions, hfrom]
  · intro htext
    simp [buildMailOptions, htext]

/-- Witness for C10, exercising the two normalizations independently: a
valid request with from the empty string but a truthy text gets the
default identity, and one with text the number 0 gets text null. -/
theorem C10_witness :
    truthy bodyFromEmptyTextSet.«from» = false ∧
    truthy bodyFromEmptyTextSet.text = true ∧
    (sendEmailHandler cfg0 true deliverOk bodyFromEmptyTextSet).2 =
      [buildMailOptions cfg0 bodyFromEmptyTextSet] ∧
    (buildMailOptions cfg0 bodyFromEmptyTextSet).«from» = .str (defaultFrom cfg0) ∧
    (buildMailOptions cfg0 bodyFromEmptyTextSet).text = .str "plain" ∧
    truthy bodyFalsyOpt.text = false ∧
    (buildMailOptions cfg0 bodyFalsyOpt).text = .null := by
  have h1 := C10_falsy_optional cfg0 deliverOk bodyFromEmptyTextSet (by decide) (by decide)
  have h2 := C10_falsy_optional cfg0 deliverOk bodyFalsyOpt (by decide) (by decide)
  exact ⟨by decide, by decide, h1.1, h1.2.1 (by decide), by decide, by decide,
    h2.2.2 (by decide)⟩

/-- C1 counterexample: with testEmail qa@example.com and a transport
throwing Connection refused, the direct send-email response is 500 with
error "Failed to send email", details "Connection refused" and code
EMAIL_SEND_ERROR, while the test-email response for the very message it
builds is 500 with error "Failed to send test email" and details "Failed
to send email" and no code field: failure is not propagated identically. -/
theorem C1_counterexample :
    (testEmailHandler cfg0 true deliverRefused ts0 ⟨.str "qa@example.com"⟩).1 =
      { status := 500
        body := [("error", .str "Failed to send test email"),
                 ("details", .str "Failed to send email")] } ∧
    (sendEmailHandler cfg0 true deliverRefused
        (testEmailData cfg0 ts0 (.str "qa@example.com"))).1 =
      { status := 500
        body := [("error", .str "Failed to send email"),
                 ("details", .str "Connection refused"),
                 ("code", .str "EMAIL_SEND_ERROR")] } ∧
    (testEmailHandler cfg0 true deliverRefused ts0 ⟨.str "qa@example.com"⟩).1.body ≠
      (sendEmailHandler cfg0 true deliverRefused
        (testEmailData cfg0 ts0 (.str "qa@example.com"))).1.body :=
  ⟨by decide, by decide, by decide⟩

/-- C1 (amended): for every truthy testEmail, SendTestEmail propagates
success identically to SendEmail on the diagnostic message it builds (the
same 200 status and the exact same body); for every failure the internal
send-email response status is not forwarded: the handler responds 500 with
error "Failed to send test email" and details equal to the error message
of the internal response, dropping its code field, while still performing
exactly the transport calls of the internal send-email invocation. -/
theorem C1_test_email_propagation (cfg : Config) (tinit : Bool)
    (deliver : MailOptions → TransportResult) (ts : String) (tb : TestEmailBody)
    (ht : truthy tb.testEmail = true) :
    ((sendEmailHandler cfg tinit deliver (testEmailData cfg ts tb.testEmail)).1.status = 200 →
      testEmailHandler cfg tinit deliver ts tb =
        sendEmailHandler cfg tinit deliver (testEmailData cfg ts tb.testEmail)) ∧
    ((sendEmailHandler cfg tinit deliver (testEmailData cfg ts tb.testEmail)).1.status ≠ 200 →
      (testEmailHandler cfg tinit deliver ts tb).1 =
        { status := 500
          body := [("error", .str "Failed to send test email"),
                   ("details", .str (errorDataMessage
                     (sendEmailHandler cfg tinit deliver
                       (testEmailData cfg ts tb.testEmail)).1.body))] } ∧
      (testEmailHandler cfg tinit deliver ts tb).2 =
        (sendEmailHandler cfg tinit deliver (testEmailData cfg ts tb.testEmail)).2) := by
  have hs := sendEmail_status_cases cfg tinit deliver (testEmailData cfg ts tb.testEmail)
  rcases hi : sendEmailHandler cfg tinit deliver (testEmailData cfg ts tb.testEmail)
    with ⟨⟨st, bd⟩, calls⟩
  rw [hi] at hs
  simp only at hs
  constructor
  · intro h200
    replace h200 : st = 200 := h200
    subst h200
    unfold testEmailHandler
    rw [hi]
    simp [ht, respOk]
  · intro hne
    replace hne : st ≠ 200 := hne
    unfold testEmailHandler
    rw [hi]
    rcases hs with h | h | h | h
    · subst h; simp [ht, respOk]
    · subst h; simp [ht, respOk]
    · exact absurd h hne
    · subst h; simp [ht, respOk]

/-- Witness for C1: with a working transport stub and testEmail
qa@example.com, the test-email response coincides with the direct
send-email response on the diagnostic message. -/
theorem C1_witness :
    truthy (JsValue.str "qa@example.com") = true ∧
    testEmailHandler cfg0 true deliverOk ts0 ⟨.str "qa@example.com"⟩ =
      sendEmailHandler cfg0 true deliverOk (testEmailData cfg0 ts0 (.str "qa@example.com")) := by
  refine ⟨by decide, ?_⟩
  exact (C1_test_email_propagation cfg0 true deliverOk ts0 ⟨.str "qa@example.com"⟩
    (by decide)).1 (by decide)

end MailRelay




